import Mathlib

/-!
Verification of the House_Tools joint-federal-tax estimator (`tax_tool.py`).

Shallow embedding conventions:
* Python `float` values are modelled as exact rationals (`ℚ`); the program's
  arithmetic (bracket walk, annualization, apportionment) is plain field
  arithmetic and the spec demands it be numerically exact.
* Python `int` is modelled as `ℤ`.
* A bracket upper bound is `Option ℚ`: `none` stands for `float("inf")`,
  the sentinel bound of the top bracket.
* Code that can raise (`ValueError`, `KeyError`) returns `Except String`,
  the error string mirroring the Python message.
-/

namespace TaxTool

structure PaystubInput where
  spouse : String
  pay_frequency : String
  ytd_pay_periods : ℤ
  ytd_gross : ℚ
  ytd_pretax_deductions : ℚ
  ytd_posttax_deductions : ℚ
  ytd_federal_withheld : ℚ
deriving DecidableEq, Repr

structure TaxResult where
  spouse : String
  annualized_taxable_income : ℚ
  annualized_gross : ℚ
  annualized_pretax : ℚ
  total_tax_share : ℚ
  target_withholding_per_period : ℚ
  target_withholding_rate : ℚ
  remaining_periods : ℤ
deriving DecidableEq, Repr

/-- `FREQUENCY_PERIODS`: the pay-frequency table, in source order. -/
def FREQUENCY_PERIODS : List (String × ℤ) :=
  [("weekly", 52), ("biweekly", 26), ("semi-monthly", 24), ("monthly", 12)]

/-- A bracket entry is `(upper_income_bound, marginal_rate)`; `none` as the
bound stands for `float("inf")`. -/
structure FederalTaxProfile where
  year : ℤ
  standard_deduction_mfj : ℚ
  brackets_mfj : List (Option ℚ × ℚ)
deriving DecidableEq, Repr

/-- The 2024 MFJ profile from `TAX_PROFILES`. -/
def profile2024 : FederalTaxProfile :=
  { year := 2024
    standard_deduction_mfj := 29200
    brackets_mfj :=
      [(some 22000, 0.10), (some 89450, 0.12), (some 190750, 0.22),
       (some 364200, 0.24), (some 462500, 0.32), (some 693750, 0.35),
       (none, 0.37)] }

/-- `TAX_PROFILES`: the year-keyed profile registry. -/
def TAX_PROFILES : List (ℤ × FederalTaxProfile) := [(2024, profile2024)]

/-- `annualize(amount, ytd_periods, periods_per_year)`: raises `ValueError`
for non-positive `ytd_periods`, else straight-line projection. -/
def annualize (amount : ℚ) (ytd_periods : ℤ) (periods_per_year : ℤ) :
    Except String ℚ :=
  if ytd_periods ≤ 0 then
    .error "ytd_pay_periods must be greater than zero."
  else
    .ok (amount / (ytd_periods : ℚ) * (periods_per_year : ℤ))

/-- Raw dict indexing `FREQUENCY_PERIODS[f]`: `KeyError` on a missing key. -/
def freqLookup (f : String) : Except String ℤ :=
  match FREQUENCY_PERIODS.lookup f with
  | some n => .ok n
  | none => .error ("KeyError: " ++ f)

/-- The body of the `compute_taxable_income` loop for one entry:
annualize gross and pretax deductions, taxable = max(0, gross − pretax). -/
def taxableIncomeOf (entry : PaystubInput) : Except String ℚ :=
  match freqLookup entry.pay_frequency with
  | .error e => .error e
  | .ok periods_per_year =>
    match annualize entry.ytd_gross entry.ytd_pay_periods periods_per_year with
    | .error e => .error e
    | .ok annual_gross =>
      match annualize entry.ytd_pretax_deductions entry.ytd_pay_periods
          periods_per_year with
      | .error e => .error e
      | .ok annual_pretax => .ok (max 0 (annual_gross - annual_pretax))

/-- Python dict assignment `d[k] = v`: overwrite in place if the key exists,
otherwise append (insertion order preserved). -/
def dictInsert (k : String) (v : ℚ) (d : List (String × ℚ)) :
    List (String × ℚ) :=
  if d.any (fun p => p.1 = k) then
    d.map (fun p => if p.1 = k then (k, v) else p)
  else
    d ++ [(k, v)]

/-- Python dict indexing `d[k]`: `KeyError` on a missing key. -/
def dictGet (d : List (String × ℚ)) (k : String) : Except String ℚ :=
  match d.lookup k with
  | some v => .ok v
  | none => .error ("KeyError: " ++ k)

/-- The `compute_taxable_income` loop: `taxable[entry.spouse] = taxable_income`
for each entry in order, starting from the accumulated dict `d`. -/
def ctiLoop (d : List (String × ℚ)) :
    List PaystubInput → Except String (List (String × ℚ))
  | [] => .ok d
  | entry :: rest =>
    match taxableIncomeOf entry with
    | .error e => .error e
    | .ok taxable_income => ctiLoop (dictInsert entry.spouse taxable_income d) rest

/-- `compute_taxable_income(inputs)`: spouse → annualized taxable income. -/
def compute_taxable_income (inputs : List PaystubInput) :
    Except String (List (String × ℚ)) :=
  ctiLoop [] inputs

/-- The bracket loop of `compute_federal_tax`, state `(taxable, tax, lower)`.
For an infinite bound (`none`), `upper_limit - lower_limit` is `+∞`, so the
slice is all of the remaining taxable income.  Python then sets
`lower_limit` to the infinite bound; that value is only ever read if another
bracket follows the infinite one, a shape no schedule considered here has,
so the embedding keeps the previous (finite) lower bound there. -/
def bracketWalk : List (Option ℚ × ℚ) → ℚ → ℚ → ℚ → ℚ
  | [], _, tax, _ => tax
  | (upper_limit, rate) :: rest, taxable_income, tax, lower_limit =>
    if taxable_income ≤ 0 then tax
    else
      match upper_limit with
      | some u =>
        bracketWalk rest (taxable_income - min (u - lower_limit) taxable_income)
          (tax + min (u - lower_limit) taxable_income * rate) u
      | none =>
        bracketWalk rest (taxable_income - taxable_income)
          (tax + taxable_income * rate) lower_limit

/-- `compute_federal_tax(taxable_income, profile)`. -/
def compute_federal_tax (taxable_income : ℚ) (profile : FederalTaxProfile) : ℚ :=
  bracketWalk profile.brackets_mfj
    (max 0 (taxable_income - profile.standard_deduction_mfj)) 0 0

/-- The per-entry tail of the `compute_results` loop, after the annualize
calls and the dict lookup have produced `periods_per_year`, `annual_gross`,
`annual_pretax` and `spouse_taxable`. -/
def buildResult (entry : PaystubInput) (periods_per_year : ℤ)
    (annual_gross annual_pretax spouse_taxable total_taxable total_tax : ℚ) :
    TaxResult :=
  let share : ℚ := if 0 < total_taxable then spouse_taxable / total_taxable else 0
  let target_tax := total_tax * share
  let remaining_periods : ℤ := max 0 (periods_per_year - entry.ytd_pay_periods)
  let remaining_tax := target_tax - entry.ytd_federal_withheld
  let per_period_target : ℚ :=
    if 0 < remaining_periods then remaining_tax / (remaining_periods : ℤ) else 0
  let gross_per_period : ℚ :=
    if periods_per_year ≠ 0 then annual_gross / (periods_per_year : ℤ) else 0
  let withholding_rate : ℚ :=
    if gross_per_period ≠ 0 then per_period_target / gross_per_period else 0
  { spouse := entry.spouse
    annualized_taxable_income := spouse_taxable
    annualized_gross := annual_gross
    annualized_pretax := annual_pretax
    total_tax_share := target_tax
    target_withholding_per_period := per_period_target
    target_withholding_rate := withholding_rate
    remaining_periods := remaining_periods }

/-- The `compute_results` loop over entries (dict, totals fixed). -/
def resultsLoop (taxable_by_spouse : List (String × ℚ))
    (total_taxable total_tax : ℚ) :
    List PaystubInput → Except String (List TaxResult)
  | [] => .ok []
  | entry :: rest =>
    match freqLookup entry.pay_frequency with
    | .error e => .error e
    | .ok periods_per_year =>
      match annualize entry.ytd_gross entry.ytd_pay_periods periods_per_year with
      | .error e => .error e
      | .ok annual_gross =>
        match annualize entry.ytd_pretax_deductions entry.ytd_pay_periods
            periods_per_year with
        | .error e => .error e
        | .ok annual_pretax =>
          match dictGet taxable_by_spouse entry.spouse with
          | .error e => .error e
          | .ok spouse_taxable =>
            match resultsLoop taxable_by_spouse total_taxable total_tax rest with
            | .error e => .error e
            | .ok results =>
              .ok (buildResult entry periods_per_year annual_gross annual_pretax
                    spouse_taxable total_taxable total_tax :: results)

/-- `compute_results(inputs, profile)`. -/
def compute_results (inputs : List PaystubInput) (profile : FederalTaxProfile) :
    Except String (List TaxResult) :=
  match compute_taxable_income inputs with
  | .error e => .error e
  | .ok taxable_by_spouse =>
    resultsLoop taxable_by_spouse ((taxable_by_spouse.map Prod.snd).sum)
      (compute_federal_tax ((taxable_by_spouse.map Prod.snd).sum) profile)
      inputs

/-- A parsed CSV data row as `load_inputs` sees it.  The `DictReader` header
check and the `int()`/`float()` cell parsing are I/O glue outside the
embedding; the `spouse` and `pay_frequency` cells stay raw strings because
`load_inputs` itself strips and lower-cases them. -/
structure CsvRow where
  spouse : String
  pay_frequency : String
  ytd_pay_periods : ℤ
  ytd_gross : ℚ
  ytd_pretax_deductions : ℚ
  ytd_posttax_deductions : ℚ
  ytd_federal_withheld : ℚ
deriving DecidableEq, Repr

/-- Python `str.strip()`: drop leading and trailing whitespace.  Modelled on
the character list because Lean's own `String.trim` is defined by
well-founded recursion on byte positions and does not evaluate in the
kernel; on the ASCII data this program handles the two agree. -/
def pyStrip (s : String) : String :=
  ⟨((s.data.dropWhile Char.isWhitespace).reverse.dropWhile Char.isWhitespace).reverse⟩

/-- Python `str.lower()` on ASCII data, modelled on the character list. -/
def pyLower (s : String) : String := ⟨s.data.map Char.toLower⟩

/-- The row loop of `load_inputs`: skip rows with a blank (stripped) spouse,
reject unsupported pay frequencies, otherwise build a `PaystubInput`. -/
def loadLoop : List CsvRow → Except String (List PaystubInput)
  | [] => .ok []
  | row :: rest =>
    if pyStrip row.spouse = "" then loadLoop rest
    else if (FREQUENCY_PERIODS.lookup (pyLower (pyStrip row.pay_frequency))).isNone then
      .error ("Unsupported pay_frequency '" ++ pyLower (pyStrip row.pay_frequency) ++
        "' for " ++ pyStrip row.spouse ++ ". Use one of " ++
        String.intercalate ", " (FREQUENCY_PERIODS.map Prod.fst) ++ ".")
    else
      match loadLoop rest with
      | .error e => .error e
      | .ok inputs =>
        .ok (({ spouse := pyStrip row.spouse
                pay_frequency := pyLower (pyStrip row.pay_frequency)
                ytd_pay_periods := row.ytd_pay_periods
                ytd_gross := row.ytd_gross
                ytd_pretax_deductions := row.ytd_pretax_deductions
                ytd_posttax_deductions := row.ytd_posttax_deductions
                ytd_federal_withheld := row.ytd_federal_withheld } : PaystubInput)
          :: inputs)

/-- `load_inputs` on the parsed data rows: run the row loop, then require
exactly two accepted rows. -/
def load_inputs (rows : List CsvRow) : Except String (List PaystubInput) :=
  match loadLoop rows with
  | .error e => .error e
  | .ok inputs =>
    if inputs.length ≠ 2 then
      .error "Provide exactly two spouse rows in the CSV."
    else
      .ok inputs

/-- Bounds of a bracket list are strictly increasing above the running lower
bound `l`, with an infinite bound allowed only in the last position. -/
def boundsOK : ℚ → List (Option ℚ × ℚ) → Bool
  | _, [] => true
  | l, (some u, _) :: rest => decide (l < u) && boundsOK u rest
  | _, (none, _) :: rest => rest.isEmpty

/-- The last bracket's bound is infinite. -/
def endsAtInf (bs : List (Option ℚ × ℚ)) : Bool :=
  match bs.getLast? with
  | some (none, _) => true
  | _ => false

/-- Every marginal rate in the bracket list is non-negative. -/
def ratesNonneg (bs : List (Option ℚ × ℚ)) : Bool :=
  bs.all (fun b => decide (0 ≤ b.2))

end TaxTool

namespace TaxTool

/-! ### Helper lemmas about the bracket walk -/

theorem bracketWalk_of_nonpos (bs : List (Option ℚ × ℚ)) (t tax l : ℚ)
    (h : t ≤ 0) : bracketWalk bs t tax l = tax := by
  cases bs with
  | nil => rfl
  | cons b rest =>
    obtain ⟨u, r⟩ := b
    simp [bracketWalk, h]

theorem ratesNonneg_cons {b : Option ℚ × ℚ} {rest : List (Option ℚ × ℚ)}
    (h : ratesNonneg (b :: rest) = true) :
    0 ≤ b.2 ∧ ratesNonneg rest = true := by
  simpa [ratesNonneg, List.all_cons, decide_eq_true_iff] using h

theorem boundsOK_cons_some {l u r : ℚ} {rest : List (Option ℚ × ℚ)}
    (h : boundsOK l ((some u, r) :: rest) = true) :
    l < u ∧ boundsOK u rest = true := by
  simpa [boundsOK, Bool.and_eq_true, decide_eq_true_iff] using h

theorem boundsOK_cons_none {l r : ℚ} {rest : List (Option ℚ × ℚ)}
    (h : boundsOK l ((none, r) :: rest) = true) : rest = [] := by
  simpa [boundsOK, List.isEmpty_iff] using h

theorem bracketWalk_ge (bs : List (Option ℚ × ℚ)) :
    ∀ l t tax, ratesNonneg bs = true → boundsOK l bs = true →
      tax ≤ bracketWalk bs t tax l := by
  induction bs with
  | nil => intro l t tax _ _; exact le_rfl
  | cons b rest ih =>
    intro l t tax hr hb
    obtain ⟨u, r⟩ := b
    obtain ⟨hr0, hrrest⟩ := ratesNonneg_cons hr
    by_cases ht : t ≤ 0
    · simp [bracketWalk, ht]
    · push_neg at ht
      cases u with
      | some ub =>
        obtain ⟨hlu, hbrest⟩ := boundsOK_cons_some hb
        have hmin : 0 ≤ min (ub - l) t := le_min (by linarith) ht.le
        have step : tax ≤ tax + min (ub - l) t * r :=
          le_add_of_nonneg_right (mul_nonneg hmin hr0)
        have := ih ub (t - min (ub - l) t) (tax + min (ub - l) t * r) hrrest hbrest
        simp only [bracketWalk, if_neg (not_le.mpr ht)]
        exact le_trans step this
      | none =>
        have hrest : rest = [] := boundsOK_cons_none hb
        subst hrest
        simp only [bracketWalk, if_neg (not_le.mpr ht)]
        exact le_add_of_nonneg_right (mul_nonneg ht.le hr0)

theorem sub_min_eq_max (c t : ℚ) : t - min c t = max 0 (t - c) := by
  rcases le_total c t with h | h
  · rw [min_eq_left h, max_eq_right (by linarith)]
  · rw [min_eq_right h, max_eq_left (by linarith)]
    ring

theorem bracketWalk_mono (bs : List (Option ℚ × ℚ)) :
    ∀ l t1 t2 tax1 tax2, ratesNonneg bs = true → boundsOK l bs = true →
      t1 ≤ t2 → tax1 ≤ tax2 →
      bracketWalk bs t1 tax1 l ≤ bracketWalk bs t2 tax2 l := by
  induction bs with
  | nil => intro l t1 t2 tax1 tax2 _ _ _ htax; exact htax
  | cons b rest ih =>
    intro l t1 t2 tax1 tax2 hr hb ht htax
    obtain ⟨u, r⟩ := b
    obtain ⟨hr0, hrrest⟩ := ratesNonneg_cons hr
    by_cases ht2 : t2 ≤ 0
    · rw [bracketWalk_of_nonpos _ _ _ _ (le_trans ht ht2),
        bracketWalk_of_nonpos _ _ _ _ ht2]
      exact htax
    · by_cases ht1 : t1 ≤ 0
      · rw [bracketWalk_of_nonpos _ _ _ _ ht1]
        exact le_trans htax (bracketWalk_ge _ _ _ _ hr hb)
      · push_neg at ht1 ht2
        cases u with
        | some ub =>
          obtain ⟨hlu, hbrest⟩ := boundsOK_cons_some hb
          have hamono : min (ub - l) t1 ≤ min (ub - l) t2 :=
            min_le_min le_rfl ht
          have htaxstep : tax1 + min (ub - l) t1 * r ≤ tax2 + min (ub - l) t2 * r :=
            add_le_add htax (mul_le_mul_of_nonneg_right hamono hr0)
          have htstep : t1 - min (ub - l) t1 ≤ t2 - min (ub - l) t2 := by
            rw [sub_min_eq_max, sub_min_eq_max]
            exact max_le_max le_rfl (by linarith)
          simp only [bracketWalk, if_neg (not_le.mpr ht1), if_neg (not_le.mpr ht2)]
          exact ih ub _ _ _ _ hrrest hbrest htstep htaxstep
        | none =>
          have hrest : rest = [] := boundsOK_cons_none hb
          subst hrest
          simp only [bracketWalk, if_neg (not_le.mpr ht1), if_neg (not_le.mpr ht2)]
          exact add_le_add htax (mul_le_mul_of_nonneg_right ht hr0)

end TaxTool

namespace TaxTool

/-! ### Claim C1 -/

/-- Claim C1, counterexample: `compute_federal_tax` subtracts the standard
deduction itself, so at input $100,000 with the 2024 schedule it walks only
$70,800 through the brackets and returns $8,056, not the claimed $12,615. -/
theorem c1_counterexample :
    compute_federal_tax 100000 profile2024 = 8056 ∧
    ¬ compute_federal_tax 100000 profile2024 = 12615 := by
  norm_num [compute_federal_tax, profile2024, bracketWalk, min_def, max_def]

/-- Claim C1, amended: with the 2024 schedule, `compute_federal_tax` applied
to a joint taxable income of $129,200 — the input that leaves $100,000 after
the function subtracts the $29,200 standard deduction — returns exactly
$12,615, by the bracket walk $22,000 at 10% = $2,200, the next $67,450 at
12% = $8,094, and the remaining $10,550 at 22% = $2,321. -/
theorem c1_amended :
    compute_federal_tax 129200 profile2024 =
      22000 * (10/100) + 67450 * (12/100) + 10550 * (22/100) ∧
    compute_federal_tax 129200 profile2024 = 12615 := by
  norm_num [compute_federal_tax, profile2024, bracketWalk, min_def, max_def]

/-! ### Claim C3 -/

/-- Claim C3: for every amount, every `periods_per_year > 0` and every
`periods_elapsed`, `annualize` returns exactly
`amount * periods_per_year / periods_elapsed` when `periods_elapsed > 0`,
and fails with the invalid-input `ValueError` exactly when
`periods_elapsed ≤ 0`. -/
theorem annualize_spec (amount : ℚ) (ytd_periods periods_per_year : ℤ)
    (_hn : 0 < periods_per_year) :
    (0 < ytd_periods →
      annualize amount ytd_periods periods_per_year =
        .ok (amount * (periods_per_year : ℚ) / (ytd_periods : ℚ))) ∧
    (ytd_periods ≤ 0 →
      annualize amount ytd_periods periods_per_year =
        .error "ytd_pay_periods must be greater than zero.") := by
  constructor
  · intro hp
    rw [annualize, if_neg (not_le.mpr hp)]
    congr 1
    ring
  · intro hp
    rw [annualize, if_pos hp]

/-- Witness for C3 at a concrete input: `annualize(25000, 10, 26) = 65000`
and `annualize(5, 0, 26)` is the invalid-input error. -/
theorem annualize_spec_witness :
    annualize 25000 10 26 = .ok 65000 ∧
    annualize 5 0 26 = .error "ytd_pay_periods must be greater than zero." := by
  have h := annualize_spec 25000 10 26 (by norm_num)
  have h0 := annualize_spec 5 0 26 (by norm_num)
  refine ⟨?_, h0.2 (by norm_num)⟩
  rw [h.1 (by norm_num)]
  norm_num

/-! ### Claim C5 -/

/-- A schedule with a negative standard deduction, on which
`compute_federal_tax 0` is not zero. -/
def c5Profile : FederalTaxProfile :=
  { year := 2024, standard_deduction_mfj := -1, brackets_mfj := [(none, 0.1)] }

/-- Claim C5, counterexample: `compute_federal_tax(0, schedule) = 0` fails
for a schedule whose standard deduction is negative: with deduction −1 and a
single 10% bracket the function returns 1/10 at income 0. -/
theorem c5_counterexample :
    compute_federal_tax 0 c5Profile = 1/10 ∧
    ¬ compute_federal_tax 0 c5Profile = 0 := by
  norm_num [compute_federal_tax, c5Profile, bracketWalk, min_def, max_def]

/-- Claim C5, amended: for every schedule, any taxable income at most the
standard deduction yields tax exactly 0; in particular
`compute_federal_tax(0, schedule) = 0` for every schedule whose standard
deduction is non-negative. -/
theorem compute_federal_tax_zero_floor (p : FederalTaxProfile) :
    (∀ t : ℚ, t ≤ p.standard_deduction_mfj → compute_federal_tax t p = 0) ∧
    (0 ≤ p.standard_deduction_mfj → compute_federal_tax 0 p = 0) := by
  have key : ∀ t : ℚ, t ≤ p.standard_deduction_mfj → compute_federal_tax t p = 0 := by
    intro t ht
    rw [compute_federal_tax, max_eq_left (by linarith),
      bracketWalk_of_nonpos _ _ _ _ le_rfl]
  exact ⟨key, fun h => key 0 h⟩

/-- Witness for C5 at a concrete input: the 2024 schedule gives zero tax at
income $20,000 (below the $29,200 deduction) and at income 0. -/
theorem compute_federal_tax_zero_floor_witness :
    compute_federal_tax 20000 profile2024 = 0 ∧
    compute_federal_tax 0 profile2024 = 0 := by
  exact ⟨(compute_federal_tax_zero_floor profile2024).1 20000 (by norm_num [profile2024]),
    (compute_federal_tax_zero_floor profile2024).2 (by norm_num [profile2024])⟩

/-! ### Claim C4 -/

/-- A schedule with strictly increasing bounds ending at infinity but a
negative marginal rate, on which the tax strictly decreases with income. -/
def c4Profile : FederalTaxProfile :=
  { year := 2024, standard_deduction_mfj := 0, brackets_mfj := [(none, -1)] }

/-- Claim C4, counterexample: with a negative marginal rate the bounds can be
strictly increasing and end at infinity while `compute_federal_tax` strictly
decreases: on a single bracket of rate −1 with zero deduction the tax at
income 1 is −1, below the tax 0 at income 0. -/
theorem c4_counterexample :
    boundsOK 0 c4Profile.brackets_mfj = true ∧
    endsAtInf c4Profile.brackets_mfj = true ∧
    compute_federal_tax 0 c4Profile = 0 ∧
    compute_federal_tax 1 c4Profile = -1 ∧
    ¬ compute_federal_tax 0 c4Profile ≤ compute_federal_tax 1 c4Profile := by
  norm_num [boundsOK, endsAtInf, compute_federal_tax, c4Profile, bracketWalk,
    min_def, max_def]

/-- Claim C4, amended: for every bracket schedule with strictly increasing
upper bounds ending at infinity and non-negative marginal rates,
`compute_federal_tax` is non-decreasing in the taxable income. -/
theorem compute_federal_tax_mono (p : FederalTaxProfile)
    (hbounds : boundsOK 0 p.brackets_mfj = true)
    (_hinf : endsAtInf p.brackets_mfj = true)
    (hrates : ratesNonneg p.brackets_mfj = true)
    (t1 t2 : ℚ) (ht : t1 ≤ t2) :
    compute_federal_tax t1 p ≤ compute_federal_tax t2 p := by
  rw [compute_federal_tax, compute_federal_tax]
  exact bracketWalk_mono p.brackets_mfj 0 _ _ 0 0 hrates hbounds
    (max_le_max le_rfl (by linarith)) le_rfl

/-- Witness for C4 at a concrete input: the 2024 schedule is well formed with
non-negative rates, and the tax at $50,000 is at most the tax at $100,000. -/
theorem compute_federal_tax_mono_witness :
    boundsOK 0 profile2024.brackets_mfj = true ∧
    endsAtInf profile2024.brackets_mfj = true ∧
    ratesNonneg profile2024.brackets_mfj = true ∧
    compute_federal_tax 50000 profile2024 ≤ compute_federal_tax 100000 profile2024 := by
  refine ⟨by norm_num [boundsOK, profile2024], by norm_num [endsAtInf, profile2024],
    by norm_num [ratesNonneg, profile2024], ?_⟩
  exact compute_federal_tax_mono profile2024 (by norm_num [boundsOK, profile2024])
    (by norm_num [endsAtInf, profile2024]) (by norm_num [ratesNonneg, profile2024])
    50000 100000 (by norm_num)

end TaxTool

namespace TaxTool

/-! ### Claim C8 -/

/-- Modelled from the spec: the bracket loop with the early-exit
`if taxable_income <= 0: break` removed, iterating over every bracket
unconditionally.  Otherwise identical to `bracketWalk`. -/
def bracketWalkNoBreak : List (Option ℚ × ℚ) → ℚ → ℚ → ℚ → ℚ
  | [], _, tax, _ => tax
  | (upper_limit, rate) :: rest, taxable_income, tax, lower_limit =>
    match upper_limit with
    | some u =>
      bracketWalkNoBreak rest
        (taxable_income - min (u - lower_limit) taxable_income)
        (tax + min (u - lower_limit) taxable_income * rate) u
    | none =>
      bracketWalkNoBreak rest (taxable_income - taxable_income)
        (tax + taxable_income * rate) lower_limit

/-- Modelled from the spec: `compute_federal_tax` built on the loop without
the short-circuit. -/
def compute_federal_tax_nobreak (taxable_income : ℚ)
    (profile : FederalTaxProfile) : ℚ :=
  bracketWalkNoBreak profile.brackets_mfj
    (max 0 (taxable_income - profile.standard_deduction_mfj)) 0 0

theorem bracketWalkNoBreak_zero (bs : List (Option ℚ × ℚ)) :
    ∀ l tax, boundsOK l bs = true → bracketWalkNoBreak bs 0 tax l = tax := by
  induction bs with
  | nil => intro l tax _; rfl
  | cons b rest ih =>
    intro l tax hb
    obtain ⟨u, r⟩ := b
    cases u with
    | some ub =>
      obtain ⟨hlu, hbrest⟩ := boundsOK_cons_some hb
      have hmin : min (ub - l) 0 = 0 := min_eq_right (by linarith)
      simp only [bracketWalkNoBreak, hmin, mul_comm]
      simpa using ih ub (tax + 0 * r) hbrest
    | none =>
      have hrest : rest = [] := boundsOK_cons_none hb
      subst hrest
      simp [bracketWalkNoBreak]

theorem bracketWalkNoBreak_eq (bs : List (Option ℚ × ℚ)) :
    ∀ l t tax, boundsOK l bs = true → 0 ≤ t →
      bracketWalkNoBreak bs t tax l = bracketWalk bs t tax l := by
  induction bs with
  | nil => intro l t tax _ _; rfl
  | cons b rest ih =>
    intro l t tax hb ht0
    obtain ⟨u, r⟩ := b
    by_cases ht : t ≤ 0
    · have ht' : t = 0 := le_antisymm ht ht0
      subst ht'
      rw [bracketWalk_of_nonpos _ _ _ _ le_rfl]
      exact bracketWalkNoBreak_zero _ _ _ hb
    · cases u with
      | some ub =>
        obtain ⟨hlu, hbrest⟩ := boundsOK_cons_some hb
        simp only [bracketWalkNoBreak, bracketWalk, if_neg ht]
        exact ih ub _ _ hbrest (by simp [sub_nonneg, min_le_right])
      | none =>
        have hrest : rest = [] := boundsOK_cons_none hb
        subst hrest
        simp [bracketWalkNoBreak, bracketWalk, if_neg ht]

/-- Claim C8: for every taxable income and every bracket schedule with
strictly increasing bounds ending at infinity, the variant of
`compute_federal_tax` with the early-exit break removed returns the same
tax as the implemented version — the short-circuit is only an optimization. -/
theorem compute_federal_tax_nobreak_eq (t : ℚ) (p : FederalTaxProfile)
    (hbounds : boundsOK 0 p.brackets_mfj = true)
    (_hinf : endsAtInf p.brackets_mfj = true) :
    compute_federal_tax_nobreak t p = compute_federal_tax t p := by
  rw [compute_federal_tax_nobreak, compute_federal_tax]
  exact bracketWalkNoBreak_eq p.brackets_mfj 0 _ 0 hbounds (le_max_left 0 _)

/-- Witness for C8 at a concrete input: the 2024 schedule is well formed and
the two versions agree at a taxable income of $250,000. -/
theorem compute_federal_tax_nobreak_eq_witness :
    boundsOK 0 profile2024.brackets_mfj = true ∧
    endsAtInf profile2024.brackets_mfj = true ∧
    compute_federal_tax_nobreak 250000 profile2024 =
      compute_federal_tax 250000 profile2024 := by
  refine ⟨by norm_num [boundsOK, profile2024], by norm_num [endsAtInf, profile2024], ?_⟩
  exact compute_federal_tax_nobreak_eq 250000 profile2024
    (by norm_num [boundsOK, profile2024]) (by norm_num [endsAtInf, profile2024])

end TaxTool

namespace TaxTool

/-! ### Helper lemmas about the result pipeline -/

theorem taxableIncomeOf_ok_elim {e : PaystubInput} {ti : ℚ}
    (h : taxableIncomeOf e = .ok ti) :
    ∃ n ag ap, freqLookup e.pay_frequency = .ok n ∧
      annualize e.ytd_gross e.ytd_pay_periods n = .ok ag ∧
      annualize e.ytd_pretax_deductions e.ytd_pay_periods n = .ok ap ∧
      ti = max 0 (ag - ap) := by
  unfold taxableIncomeOf at h
  cases hf : freqLookup e.pay_frequency with
  | error s => rw [hf] at h; exact absurd h (by simp)
  | ok n =>
    rw [hf] at h
    dsimp only at h
    cases hg : annualize e.ytd_gross e.ytd_pay_periods n with
    | error s => rw [hg] at h; exact absurd h (by simp)
    | ok ag =>
      rw [hg] at h
      dsimp only at h
      cases hp : annualize e.ytd_pretax_deductions e.ytd_pay_periods n with
      | error s => rw [hp] at h; exact absurd h (by simp)
      | ok ap =>
        rw [hp] at h
        dsimp only at h
        exact ⟨n, ag, ap, rfl, hg, hp, (Except.ok.inj h).symm⟩

theorem taxableIncomeOf_ok_intro {e : PaystubInput} {n : ℤ} {ag ap : ℚ}
    (hf : freqLookup e.pay_frequency = .ok n)
    (hg : annualize e.ytd_gross e.ytd_pay_periods n = .ok ag)
    (hp : annualize e.ytd_pretax_deductions e.ytd_pay_periods n = .ok ap) :
    taxableIncomeOf e = .ok (max 0 (ag - ap)) := by
  unfold taxableIncomeOf
  rw [hf]
  dsimp only
  rw [hg]
  dsimp only
  rw [hp]

theorem ctiLoop_cons_elim {d d' : List (String × ℚ)} {e : PaystubInput}
    {rest : List PaystubInput}
    (h : ctiLoop d (e :: rest) = .ok d') :
    ∃ ti, taxableIncomeOf e = .ok ti ∧
      ctiLoop (dictInsert e.spouse ti d) rest = .ok d' := by
  unfold ctiLoop at h
  cases ht : taxableIncomeOf e with
  | error s => rw [ht] at h; exact absurd h (by simp)
  | ok ti =>
    rw [ht] at h
    dsimp only at h
    exact ⟨ti, rfl, h⟩

theorem ctiLoop_cons_intro {d : List (String × ℚ)} {e : PaystubInput}
    {rest : List PaystubInput} {ti : ℚ}
    (ht : taxableIncomeOf e = .ok ti) :
    ctiLoop d (e :: rest) = ctiLoop (dictInsert e.spouse ti d) rest := by
  conv_lhs => rw [ctiLoop]
  rw [ht]

theorem dictInsert_nil (k : String) (v : ℚ) : dictInsert k v [] = [(k, v)] := by
  simp [dictInsert]

theorem dictInsert_single_same (k k0 : String) (v v0 : ℚ) (h : k0 = k) :
    dictInsert k v [(k0, v0)] = [(k, v)] := by
  simp [dictInsert, h]

theorem dictInsert_single_ne (k k0 : String) (v v0 : ℚ) (h : ¬ k0 = k) :
    dictInsert k v [(k0, v0)] = [(k0, v0), (k, v)] := by
  simp [dictInsert, h]

theorem resultsLoop_cons_elim {d : List (String × ℚ)} {T tt : ℚ}
    {e : PaystubInput} {rest : List PaystubInput} {rs : List TaxResult}
    (h : resultsLoop d T tt (e :: rest) = .ok rs) :
    ∃ n ag ap st rs', freqLookup e.pay_frequency = .ok n ∧
      annualize e.ytd_gross e.ytd_pay_periods n = .ok ag ∧
      annualize e.ytd_pretax_deductions e.ytd_pay_periods n = .ok ap ∧
      dictGet d e.spouse = .ok st ∧
      resultsLoop d T tt rest = .ok rs' ∧
      rs = buildResult e n ag ap st T tt :: rs' := by
  unfold resultsLoop at h
  cases hf : freqLookup e.pay_frequency with
  | error s => rw [hf] at h; exact absurd h (by simp)
  | ok n =>
    rw [hf] at h
    dsimp only at h
    cases hg : annualize e.ytd_gross e.ytd_pay_periods n with
    | error s => rw [hg] at h; exact absurd h (by simp)
    | ok ag =>
      rw [hg] at h
      dsimp only at h
      cases hp : annualize e.ytd_pretax_deductions e.ytd_pay_periods n with
      | error s => rw [hp] at h; exact absurd h (by simp)
      | ok ap =>
        rw [hp] at h
        dsimp only at h
        cases hs : dictGet d e.spouse with
        | error s => rw [hs] at h; exact absurd h (by simp)
        | ok st =>
          rw [hs] at h
          dsimp only at h
          cases hr : resultsLoop d T tt rest with
          | error s => rw [hr] at h; exact absurd h (by simp)
          | ok rs' =>
            rw [hr] at h
            dsimp only at h
            exact ⟨n, ag, ap, st, rs', rfl, hg, hp, rfl, rfl,
              (Except.ok.inj h).symm⟩

theorem resultsLoop_cons_intro {d : List (String × ℚ)} {T tt : ℚ}
    {e : PaystubInput} {rest : List PaystubInput}
    {n : ℤ} {ag ap st : ℚ} {rs' : List TaxResult}
    (hf : freqLookup e.pay_frequency = .ok n)
    (hg : annualize e.ytd_gross e.ytd_pay_periods n = .ok ag)
    (hp : annualize e.ytd_pretax_deductions e.ytd_pay_periods n = .ok ap)
    (hs : dictGet d e.spouse = .ok st)
    (hr : resultsLoop d T tt rest = .ok rs') :
    resultsLoop d T tt (e :: rest) = .ok (buildResult e n ag ap st T tt :: rs') := by
  conv_lhs => rw [resultsLoop]
  rw [hf]
  dsimp only
  rw [hg]
  dsimp only
  rw [hp]
  dsimp only
  rw [hs]
  dsimp only
  rw [hr]

theorem compute_results_elim {inputs : List PaystubInput}
    {p : FederalTaxProfile} {rs : List TaxResult}
    (h : compute_results inputs p = .ok rs) :
    ∃ d, compute_taxable_income inputs = .ok d ∧
      resultsLoop d ((d.map Prod.snd).sum)
        (compute_federal_tax ((d.map Prod.snd).sum) p) inputs = .ok rs := by
  unfold compute_results at h
  cases hd : compute_taxable_income inputs with
  | error s => rw [hd] at h; exact absurd h (by simp)
  | ok d =>
    rw [hd] at h
    dsimp only at h
    exact ⟨d, rfl, h⟩

theorem compute_results_intro {inputs : List PaystubInput}
    {p : FederalTaxProfile} {d : List (String × ℚ)} {rs : List TaxResult}
    (hd : compute_taxable_income inputs = .ok d)
    (hr : resultsLoop d ((d.map Prod.snd).sum)
        (compute_federal_tax ((d.map Prod.snd).sum) p) inputs = .ok rs) :
    compute_results inputs p = .ok rs := by
  unfold compute_results
  rw [hd]
  dsimp only
  rw [hr]

/-! ### Field lemmas for `buildResult` -/

theorem buildResult_total_tax_share (e : PaystubInput) (n : ℤ)
    (ag ap st T tt : ℚ) :
    (buildResult e n ag ap st T tt).total_tax_share =
      tt * (if 0 < T then st / T else 0) := rfl

theorem buildResult_taxable (e : PaystubInput) (n : ℤ) (ag ap st T tt : ℚ) :
    (buildResult e n ag ap st T tt).annualized_taxable_income = st := rfl

theorem buildResult_remaining (e : PaystubInput) (n : ℤ) (ag ap st T tt : ℚ) :
    (buildResult e n ag ap st T tt).remaining_periods =
      max 0 (n - e.ytd_pay_periods) := rfl

theorem buildResult_target (e : PaystubInput) (n : ℤ) (ag ap st T tt : ℚ) :
    (buildResult e n ag ap st T tt).target_withholding_per_period =
      if 0 < max 0 (n - e.ytd_pay_periods) then
        (tt * (if 0 < T then st / T else 0) - e.ytd_federal_withheld) /
          ((max 0 (n - e.ytd_pay_periods) : ℤ) : ℚ)
      else 0 := rfl

end TaxTool

namespace TaxTool

/-! ### Generic dict lookup lemmas -/

theorem dictGet_head (k : String) (v : ℚ) (rest : List (String × ℚ)) :
    dictGet ((k, v) :: rest) k = .ok v := by
  simp [dictGet, List.lookup]

theorem dictGet_cons_ne {k k0 : String} (v0 : ℚ) (rest : List (String × ℚ))
    (h : ¬ k = k0) : dictGet ((k0, v0) :: rest) k = dictGet rest k := by
  have hb : (k == k0) = false := beq_eq_false_iff_ne.mpr h
  simp [dictGet, List.lookup, hb]

/-! ### Claim C2 -/

/-- Claim C2: for distinct spouse identifiers, the two apportioned
liabilities produced by `compute_results` sum exactly to the joint tax on
the joint taxable income, whenever that joint income is positive. -/
theorem apportionment_conservation (a b : PaystubInput)
    (p : FederalTaxProfile) (d : List (String × ℚ)) (rs : List TaxResult)
    (hne : ¬ a.spouse = b.spouse)
    (hd : compute_taxable_income [a, b] = .ok d)
    (hpos : 0 < (d.map Prod.snd).sum)
    (hr : compute_results [a, b] p = .ok rs) :
    (rs.map TaxResult.total_tax_share).sum =
      compute_federal_tax ((d.map Prod.snd).sum) p := by
  obtain ⟨d', hd', hloop⟩ := compute_results_elim hr
  rw [hd] at hd'
  obtain rfl : d = d' := Except.ok.inj hd'
  unfold compute_taxable_income at hd
  obtain ⟨ta, hta, h2⟩ := ctiLoop_cons_elim hd
  obtain ⟨tb, htb, h3⟩ := ctiLoop_cons_elim h2
  unfold ctiLoop at h3
  obtain rfl : d = dictInsert b.spouse tb (dictInsert a.spouse ta []) :=
    (Except.ok.inj h3).symm
  rw [dictInsert_nil, dictInsert_single_ne _ _ _ _ hne] at hloop hpos ⊢
  obtain ⟨na, aga, apa, sta, rs1, hfa, hga, hpa, hsa, hloop1, hrs⟩ :=
    resultsLoop_cons_elim hloop
  obtain ⟨nb, agb, apb, stb, rs2, hfb, hgb, hpb, hsb, hloop2, hrs1⟩ :=
    resultsLoop_cons_elim hloop1
  unfold resultsLoop at hloop2
  obtain rfl : rs2 = [] := (Except.ok.inj hloop2).symm
  subst hrs1
  subst hrs
  rw [dictGet_head] at hsa
  obtain rfl : sta = ta := (Except.ok.inj hsa).symm
  rw [dictGet_cons_ne _ _ (fun hh => hne hh.symm), dictGet_head] at hsb
  obtain rfl : stb = tb := (Except.ok.inj hsb).symm
  simp only [List.map_cons, List.map_nil, List.sum_cons, List.sum_nil,
    buildResult_total_tax_share] at hpos ⊢
  have hT : sta + (stb + 0) ≠ 0 := ne_of_gt hpos
  rw [add_zero] at hT
  rw [if_pos hpos, if_pos hpos]
  field_simp
  ring

/-- Records with the same spouse identifier: the dict overwrite makes the
apportioned shares double-count, breaking conservation. -/
def dupA : PaystubInput := ⟨"a", "weekly", 1, 20000, 0, 0, 0⟩

/-- Second record with the same spouse identifier as `dupA`. -/
def dupB : PaystubInput := ⟨"a", "weekly", 1, 10000, 0, 0, 0⟩

/-- Claim C2, counterexample: with two records sharing the spouse identifier
`"a"`, the joint taxable income is positive ($520,000), the joint tax is
$115,569, but the two apportioned liabilities sum to $231,138: each record
is assigned the full joint tax because the taxable-income dict holds a
single entry that both lookups hit. -/
theorem c2_counterexample :
    compute_taxable_income [dupA, dupB] = .ok [("a", 520000)] ∧
    (0 : ℚ) < 520000 ∧
    compute_federal_tax 520000 profile2024 = 115569 ∧
    (compute_results [dupA, dupB] profile2024).map
      (fun rs => (rs.map TaxResult.total_tax_share).sum) = .ok 231138 ∧
    ¬ (231138 : ℚ) = 115569 := by
  have hfw : freqLookup "weekly" = .ok 52 := by
    have h : FREQUENCY_PERIODS.lookup "weekly" = some 52 := by decide
    rw [freqLookup, h]
  have ha : taxableIncomeOf dupA = .ok 1040000 := by
    have h := @taxableIncomeOf_ok_intro dupA 52 1040000 0 hfw (by norm_num [annualize, dupA]) (by norm_num [annualize, dupA])
    simpa using h
  have hb : taxableIncomeOf dupB = .ok 520000 := by
    have h := @taxableIncomeOf_ok_intro dupB 52 520000 0 hfw (by norm_num [annualize, dupB]) (by norm_num [annualize, dupB])
    simpa using h
  have hcti : compute_taxable_income [dupA, dupB] = .ok [("a", 520000)] := by
    rw [compute_taxable_income, ctiLoop_cons_intro ha, ctiLoop_cons_intro hb,
      ctiLoop, dictInsert_nil,
      dictInsert_single_same dupB.spouse dupA.spouse 520000 1040000 (by decide)]
    rfl
  have htax : compute_federal_tax 520000 profile2024 = 115569 := by
    norm_num [compute_federal_tax, profile2024, bracketWalk, min_def, max_def]
  refine ⟨hcti, by norm_num, htax, ?_, by norm_num⟩
  have hloop : resultsLoop [("a", 520000)] 520000 115569 [dupA, dupB] =
      .ok [buildResult dupA 52 1040000 0 520000 520000 115569,
           buildResult dupB 52 520000 0 520000 520000 115569] := by
    refine resultsLoop_cons_intro hfw (by norm_num [annualize, dupA])
      (by norm_num [annualize, dupA]) (dictGet_head _ _ _) ?_
    refine resultsLoop_cons_intro hfw (by norm_num [annualize, dupB])
      (by norm_num [annualize, dupB]) (dictGet_head _ _ _) ?_
    rfl
  have hcr : compute_results [dupA, dupB] profile2024 =
      .ok [buildResult dupA 52 1040000 0 520000 520000 115569,
           buildResult dupB 52 520000 0 520000 520000 115569] := by
    refine compute_results_intro hcti ?_
    simpa [htax] using hloop
  rw [hcr]
  simp only [Except.map, List.map_cons, List.map_nil, List.sum_cons,
    List.sum_nil, buildResult_total_tax_share]
  norm_num

end TaxTool

namespace TaxTool

/-! ### Concrete frequency lookups -/

theorem freqLookup_weekly : freqLookup "weekly" = .ok 52 := by
  have h : FREQUENCY_PERIODS.lookup "weekly" = some 52 := by decide
  rw [freqLookup, h]

theorem freqLookup_biweekly : freqLookup "biweekly" = .ok 26 := by
  have h : FREQUENCY_PERIODS.lookup "biweekly" = some 26 := by decide
  rw [freqLookup, h]

theorem freqLookup_monthly : freqLookup "monthly" = .ok 12 := by
  have h : FREQUENCY_PERIODS.lookup "monthly" = some 12 := by decide
  rw [freqLookup, h]

/-- Spouse "a": weekly, 26 of 52 periods elapsed, $5,000 gross so far. -/
def wA : PaystubInput := ⟨"a", "weekly", 26, 5000, 0, 0, 0⟩

/-- Spouse "b": biweekly, 13 of 26 periods elapsed, $2,500 gross so far. -/
def wB : PaystubInput := ⟨"b", "biweekly", 13, 2500, 0, 0, 0⟩

/-- The result `compute_results` produces for `wA`. -/
def c2resA : TaxResult := ⟨"a", 10000, 10000, 0, 0, 0, 0, 26⟩

/-- The result `compute_results` produces for `wB`. -/
def c2resB : TaxResult := ⟨"b", 5000, 5000, 0, 0, 0, 0, 13⟩

theorem cti_wAB : compute_taxable_income [wA, wB] = .ok [("a", 10000), ("b", 5000)] := by
  have ha : taxableIncomeOf wA = .ok 10000 := by
    have h := @taxableIncomeOf_ok_intro wA 52 10000 0
      freqLookup_weekly (by norm_num [annualize, wA]) (by norm_num [annualize, wA])
    simpa using h
  have hb : taxableIncomeOf wB = .ok 5000 := by
    have h := @taxableIncomeOf_ok_intro wB 26 5000 0
      freqLookup_biweekly (by norm_num [annualize, wB]) (by norm_num [annualize, wB])
    simpa using h
  rw [compute_taxable_income, ctiLoop_cons_intro ha, ctiLoop_cons_intro hb, ctiLoop,
    dictInsert_nil, dictInsert_single_ne _ _ _ _ (by decide)]
  rfl

theorem results_wAB :
    compute_results [wA, wB] profile2024 = .ok [c2resA, c2resB] := by
  unfold compute_results
  rw [cti_wAB]
  dsimp only
  have hsum : (List.map Prod.snd [("a", (10000 : ℚ)), ("b", 5000)]).sum = 15000 := by
    norm_num
  have htt : compute_federal_tax 15000 profile2024 = 0 := by
    norm_num [compute_federal_tax, profile2024, bracketWalk, max_def]
  rw [hsum, htt]
  have hdgb : dictGet [("a", (10000 : ℚ)), ("b", 5000)] wB.spouse = .ok 5000 :=
    (dictGet_cons_ne _ _ (by decide)).trans (dictGet_head _ _ _)
  have hdga : dictGet [("a", (10000 : ℚ)), ("b", 5000)] wA.spouse = .ok 10000 :=
    dictGet_head _ _ _
  have hnil : resultsLoop [("a", (10000 : ℚ)), ("b", 5000)] 15000 0 [] = .ok [] := rfl
  have hinner : resultsLoop [("a", (10000 : ℚ)), ("b", 5000)] 15000 0 [wB] =
      .ok [buildResult wB 26 5000 0 5000 15000 0] :=
    resultsLoop_cons_intro freqLookup_biweekly (by norm_num [annualize, wB])
      (by norm_num [annualize, wB]) hdgb hnil
  have hga : annualize wA.ytd_gross wA.ytd_pay_periods 52 = .ok 10000 := by
    norm_num [annualize, wA]
  have hpa : annualize wA.ytd_pretax_deductions wA.ytd_pay_periods 52 = .ok 0 := by
    norm_num [annualize, wA]
  rw [resultsLoop_cons_intro freqLookup_weekly hga hpa hdga hinner]
  norm_num [buildResult, c2resA, c2resB, wA, wB, TaxResult.mk.injEq, max_def]

/-- Witness for C2 at a concrete input: the two records `wA`, `wB` have
distinct spouses, joint taxable income $15,000 > 0, and the shares of the
two computed results sum to the joint tax. -/
theorem apportionment_conservation_witness :
    ([c2resA, c2resB].map TaxResult.total_tax_share).sum =
      compute_federal_tax ((([("a", (10000 : ℚ)), ("b", 5000)]).map Prod.snd).sum)
        profile2024 := by
  exact apportionment_conservation wA wB profile2024 [("a", 10000), ("b", 5000)]
    [c2resA, c2resB] (by decide) cti_wAB (by norm_num) results_wAB

end TaxTool

namespace TaxTool

/-! ### Claim C6 -/

/-- Claim C6: when both input records have zero annualized taxable income,
`compute_results` succeeds — the `total_taxable > 0` guard takes the
no-division branch, so no division by zero occurs — and both results carry
a `total_tax_share` of exactly zero. -/
theorem zero_joint_income_shares (a b : PaystubInput) (p : FederalTaxProfile)
    (ha : taxableIncomeOf a = .ok 0) (hb : taxableIncomeOf b = .ok 0) :
    ∃ ra rb, compute_results [a, b] p = .ok [ra, rb] ∧
      ra.total_tax_share = 0 ∧ rb.total_tax_share = 0 := by
  obtain ⟨na, aga, apa, hfa, hga, hpa, -⟩ := taxableIncomeOf_ok_elim ha
  obtain ⟨nb, agb, apb, hfb, hgb, hpb, -⟩ := taxableIncomeOf_ok_elim hb
  by_cases hs : a.spouse = b.spouse
  · have hcti : compute_taxable_income [a, b] = .ok [(b.spouse, 0)] := by
      rw [compute_taxable_income, ctiLoop_cons_intro ha, ctiLoop_cons_intro hb,
        ctiLoop, dictInsert_nil, dictInsert_single_same b.spouse a.spouse 0 0 hs]
    refine ⟨buildResult a na aga apa 0 0 (compute_federal_tax 0 p),
      buildResult b nb agb apb 0 0 (compute_federal_tax 0 p), ?_, ?_, ?_⟩
    · unfold compute_results
      rw [hcti]
      dsimp only
      have hsum : (List.map Prod.snd [(b.spouse, (0 : ℚ))]).sum = 0 := by simp
      rw [hsum]
      have hdga : dictGet [(b.spouse, (0 : ℚ))] a.spouse = .ok 0 := by
        rw [hs]; exact dictGet_head _ _ _
      have hdgb : dictGet [(b.spouse, (0 : ℚ))] b.spouse = .ok 0 :=
        dictGet_head _ _ _
      have hnil : resultsLoop [(b.spouse, (0 : ℚ))] 0 (compute_federal_tax 0 p) [] =
          .ok [] := rfl
      rw [resultsLoop_cons_intro hfa hga hpa hdga
        (resultsLoop_cons_intro hfb hgb hpb hdgb hnil)]
    · rw [buildResult_total_tax_share]
      simp
    · rw [buildResult_total_tax_share]
      simp
  · have hcti : compute_taxable_income [a, b] = .ok [(a.spouse, 0), (b.spouse, 0)] := by
      rw [compute_taxable_income, ctiLoop_cons_intro ha, ctiLoop_cons_intro hb,
        ctiLoop, dictInsert_nil, dictInsert_single_ne _ _ _ _ hs]
    refine ⟨buildResult a na aga apa 0 0 (compute_federal_tax 0 p),
      buildResult b nb agb apb 0 0 (compute_federal_tax 0 p), ?_, ?_, ?_⟩
    · unfold compute_results
      rw [hcti]
      dsimp only
      have hsum : (List.map Prod.snd [(a.spouse, (0 : ℚ)), (b.spouse, 0)]).sum = 0 := by
        simp
      rw [hsum]
      have hdga : dictGet [(a.spouse, (0 : ℚ)), (b.spouse, 0)] a.spouse = .ok 0 :=
        dictGet_head _ _ _
      have hdgb : dictGet [(a.spouse, (0 : ℚ)), (b.spouse, 0)] b.spouse = .ok 0 :=
        (dictGet_cons_ne _ _ (fun hh => hs hh.symm)).trans (dictGet_head _ _ _)
      have hnil : resultsLoop [(a.spouse, (0 : ℚ)), (b.spouse, 0)] 0
          (compute_federal_tax 0 p) [] = .ok [] := rfl
      rw [resultsLoop_cons_intro hfa hga hpa hdga
        (resultsLoop_cons_intro hfb hgb hpb hdgb hnil)]
    · rw [buildResult_total_tax_share]
      simp
    · rw [buildResult_total_tax_share]
      simp

/-- Zero-income record for spouse "a" (weekly, 1 period elapsed). -/
def zA : PaystubInput := ⟨"a", "weekly", 1, 0, 0, 0, 0⟩

/-- Zero-income record for spouse "b" (monthly, 2 periods elapsed). -/
def zB : PaystubInput := ⟨"b", "monthly", 2, 0, 0, 0, 0⟩

/-- Witness for C6 at a concrete input: two zero-income records yield a
successful run with both tax shares zero. -/
theorem zero_joint_income_shares_witness :
    ∃ ra rb, compute_results [zA, zB] profile2024 = .ok [ra, rb] ∧
      ra.total_tax_share = 0 ∧ rb.total_tax_share = 0 := by
  have ha : taxableIncomeOf zA = .ok 0 := by
    have h := @taxableIncomeOf_ok_intro zA 52 0 0
      freqLookup_weekly (by norm_num [annualize, zA]) (by norm_num [annualize, zA])
    simpa using h
  have hb : taxableIncomeOf zB = .ok 0 := by
    have h := @taxableIncomeOf_ok_intro zB 12 0 0
      freqLookup_monthly (by norm_num [annualize, zB]) (by norm_num [annualize, zB])
    simpa using h
  exact zero_joint_income_shares zA zB profile2024 ha hb

/-! ### Claim C9 -/

/-- Claim C9: when both records carry the same spouse identifier, the
taxable-income dict has a single entry holding the second record's taxable
income (the first is overwritten), the joint income summed by
`compute_results` is just that value, and both results are computed from it:
both report it as their annualized taxable income and both receive the same
tax share. -/
theorem duplicate_spouse_overwrite (a b : PaystubInput) (p : FederalTaxProfile)
    (ta tb : ℚ) (hs : a.spouse = b.spouse)
    (ha : taxableIncomeOf a = .ok ta) (hb : taxableIncomeOf b = .ok tb) :
    compute_taxable_income [a, b] = .ok [(a.spouse, tb)] ∧
    ∃ ra rb, compute_results [a, b] p = .ok [ra, rb] ∧
      ra.annualized_taxable_income = tb ∧ rb.annualized_taxable_income = tb ∧
      ra.total_tax_share = rb.total_tax_share := by
  obtain ⟨na, aga, apa, hfa, hga, hpa, -⟩ := taxableIncomeOf_ok_elim ha
  obtain ⟨nb, agb, apb, hfb, hgb, hpb, -⟩ := taxableIncomeOf_ok_elim hb
  have hcti : compute_taxable_income [a, b] = .ok [(a.spouse, tb)] := by
    rw [compute_taxable_income, ctiLoop_cons_intro ha, ctiLoop_cons_intro hb,
      ctiLoop, dictInsert_nil, dictInsert_single_same b.spouse a.spouse tb ta hs,
      hs]
  refine ⟨hcti, buildResult a na aga apa tb tb (compute_federal_tax tb p),
    buildResult b nb agb apb tb tb (compute_federal_tax tb p), ?_,
    buildResult_taxable _ _ _ _ _ _ _, buildResult_taxable _ _ _ _ _ _ _, rfl⟩
  unfold compute_results
  rw [hcti]
  dsimp only
  have hsum : (List.map Prod.snd [(a.spouse, tb)]).sum = tb := by simp
  rw [hsum]
  have hdga : dictGet [(a.spouse, tb)] a.spouse = .ok tb := dictGet_head _ _ _
  have hdgb : dictGet [(a.spouse, tb)] b.spouse = .ok tb := by
    rw [← hs]; exact dictGet_head _ _ _
  have hnil : resultsLoop [(a.spouse, tb)] tb (compute_federal_tax tb p) [] =
      .ok [] := rfl
  rw [resultsLoop_cons_intro hfa hga hpa hdga
    (resultsLoop_cons_intro hfb hgb hpb hdgb hnil)]

/-- Witness for C9 at a concrete input: `dupA` and `dupB` share spouse "a";
the dict keeps only `dupB`'s taxable income ($520,000) and both results are
built from it. -/
theorem duplicate_spouse_overwrite_witness :
    compute_taxable_income [dupA, dupB] = .ok [(dupA.spouse, 520000)] ∧
    ∃ ra rb, compute_results [dupA, dupB] profile2024 = .ok [ra, rb] ∧
      ra.annualized_taxable_income = 520000 ∧
      rb.annualized_taxable_income = 520000 ∧
      ra.total_tax_share = rb.total_tax_share := by
  have ha : taxableIncomeOf dupA = .ok 1040000 := by
    have h := @taxableIncomeOf_ok_intro dupA 52 1040000 0 freqLookup_weekly (by norm_num [annualize, dupA])
      (by norm_num [annualize, dupA])
    simpa using h
  have hb : taxableIncomeOf dupB = .ok 520000 := by
    have h := @taxableIncomeOf_ok_intro dupB 52 520000 0 freqLookup_weekly (by norm_num [annualize, dupB])
      (by norm_num [annualize, dupB])
    simpa using h
  exact duplicate_spouse_overwrite dupA dupB profile2024 1040000 520000 rfl ha hb

end TaxTool

namespace TaxTool

/-! ### Claim C7 -/

theorem resultsLoop_get (inputs : List PaystubInput) :
    ∀ d T tt rs, resultsLoop d T tt inputs = .ok rs →
      ∀ i (hi : i < inputs.length) (hj : i < rs.length),
        ∃ n ag ap st, freqLookup (inputs.get ⟨i, hi⟩).pay_frequency = .ok n ∧
          rs.get ⟨i, hj⟩ = buildResult (inputs.get ⟨i, hi⟩) n ag ap st T tt := by
  induction inputs with
  | nil => intro d T tt rs h i hi hj; exact absurd hi (by simp)
  | cons e rest ih =>
    intro d T tt rs h i hi hj
    obtain ⟨n, ag, ap, st, rs', hf, hg, hp, hs, hr, rfl⟩ := resultsLoop_cons_elim h
    cases i with
    | zero => exact ⟨n, ag, ap, st, hf, rfl⟩
    | succ k =>
      have hk : k < rest.length := by simpa using hi
      have hk' : k < rs'.length := by simpa using hj
      obtain ⟨n', ag', ap', st', hf', hget⟩ := ih d T tt rs' hr k hk hk'
      exact ⟨n', ag', ap', st', by simpa using hf', by simpa using hget⟩

/-- Claim C7: each result's `remaining_periods` is
`max(0, periods_per_year − ytd_pay_periods)` for the matching input record —
never negative, even when the elapsed periods exceed the year — and whenever
it is zero the per-period withholding target is exactly zero. -/
theorem remaining_periods_spec (inputs : List PaystubInput)
    (p : FederalTaxProfile) (rs : List TaxResult)
    (hr : compute_results inputs p = .ok rs)
    (i : ℕ) (hi : i < inputs.length) (hj : i < rs.length) (n : ℤ)
    (hn : freqLookup (inputs.get ⟨i, hi⟩).pay_frequency = .ok n) :
    (rs.get ⟨i, hj⟩).remaining_periods =
      max 0 (n - (inputs.get ⟨i, hi⟩).ytd_pay_periods) ∧
    0 ≤ (rs.get ⟨i, hj⟩).remaining_periods ∧
    ((rs.get ⟨i, hj⟩).remaining_periods = 0 →
      (rs.get ⟨i, hj⟩).target_withholding_per_period = 0) := by
  obtain ⟨d, hd, hloop⟩ := compute_results_elim hr
  obtain ⟨n', ag, ap, st, hf', hget⟩ := resultsLoop_get inputs d _ _ rs hloop i hi hj
  obtain rfl : n' = n := by rw [hn] at hf'; exact (Except.ok.inj hf').symm
  rw [hget, buildResult_remaining]
  refine ⟨rfl, le_max_left _ _, ?_⟩
  intro h0
  rw [buildResult_target, h0]
  simp

/-- Record whose elapsed periods (30) exceed the biweekly year (26). -/
def overB : PaystubInput := ⟨"b", "biweekly", 30, 3000, 0, 0, 0⟩

theorem cti_wA_overB :
    compute_taxable_income [wA, overB] = .ok [("a", 10000), ("b", 2600)] := by
  have ha : taxableIncomeOf wA = .ok 10000 := by
    have h := @taxableIncomeOf_ok_intro wA 52 10000 0
      freqLookup_weekly (by norm_num [annualize, wA]) (by norm_num [annualize, wA])
    simpa using h
  have hb : taxableIncomeOf overB = .ok 2600 := by
    have h := @taxableIncomeOf_ok_intro overB 26 2600 0
      freqLookup_biweekly (by norm_num [annualize, overB])
      (by norm_num [annualize, overB])
    simpa using h
  rw [compute_taxable_income, ctiLoop_cons_intro ha, ctiLoop_cons_intro hb, ctiLoop,
    dictInsert_nil, dictInsert_single_ne _ _ _ _ (by decide)]
  rfl

theorem results_wA_overB :
    compute_results [wA, overB] profile2024 =
      .ok [buildResult wA 52 10000 0 10000 12600 0,
           buildResult overB 26 2600 0 2600 12600 0] := by
  unfold compute_results
  rw [cti_wA_overB]
  dsimp only
  have hsum : (List.map Prod.snd [("a", (10000 : ℚ)), ("b", 2600)]).sum = 12600 := by
    norm_num
  have htt : compute_federal_tax 12600 profile2024 = 0 := by
    norm_num [compute_federal_tax, profile2024, bracketWalk, max_def]
  rw [hsum, htt]
  have hdga : dictGet [("a", (10000 : ℚ)), ("b", 2600)] wA.spouse = .ok 10000 :=
    dictGet_head _ _ _
  have hdgb : dictGet [("a", (10000 : ℚ)), ("b", 2600)] overB.spouse = .ok 2600 :=
    (dictGet_cons_ne _ _ (by decide)).trans (dictGet_head _ _ _)
  have hnil : resultsLoop [("a", (10000 : ℚ)), ("b", 2600)] 12600 0 [] = .ok [] := rfl
  have hga : annualize wA.ytd_gross wA.ytd_pay_periods 52 = .ok 10000 := by
    norm_num [annualize, wA]
  have hpa : annualize wA.ytd_pretax_deductions wA.ytd_pay_periods 52 = .ok 0 := by
    norm_num [annualize, wA]
  have hgb : annualize overB.ytd_gross overB.ytd_pay_periods 26 = .ok 2600 := by
    norm_num [annualize, overB]
  have hpb : annualize overB.ytd_pretax_deductions overB.ytd_pay_periods 26 = .ok 0 := by
    norm_num [annualize, overB]
  rw [resultsLoop_cons_intro freqLookup_weekly hga hpa hdga
    (resultsLoop_cons_intro freqLookup_biweekly hgb hpb hdgb hnil)]

/-- Witness for C7 at a concrete input: `overB` has 30 elapsed periods
against a biweekly year of 26, yet its result (index 1) has
`remaining_periods = max 0 (26 - 30) = 0`, non-negative, and a zero
withholding target. -/
theorem remaining_periods_spec_witness :
    (buildResult overB 26 2600 0 2600 12600 0).remaining_periods = max 0 (26 - 30) ∧
    0 ≤ (buildResult overB 26 2600 0 2600 12600 0).remaining_periods ∧
    ((buildResult overB 26 2600 0 2600 12600 0).remaining_periods = 0 →
      (buildResult overB 26 2600 0 2600 12600 0).target_withholding_per_period = 0) := by
  have h := remaining_periods_spec [wA, overB] profile2024
    [buildResult wA 52 10000 0 10000 12600 0,
     buildResult overB 26 2600 0 2600 12600 0]
    results_wA_overB 1 (by norm_num) (by norm_num) 26 freqLookup_biweekly
  simpa using h

end TaxTool

namespace TaxTool

/-! ### Claim C10 -/

/-- A valid data row whose cells need stripping and lower-casing. -/
def rowAlice : CsvRow := ⟨"alice", "Weekly", 10, 1000, 100, 0, 50⟩

/-- A row with a whitespace-only spouse cell and an invalid pay frequency. -/
def blankRow : CsvRow := ⟨"   ", "daily", 5, 1, 2, 3, 4⟩

/-- A second valid data row. -/
def rowBob : CsvRow := ⟨" bob ", "biweekly", 8, 2000, 0, 0, 100⟩

/-- Claim C10: the row loop of `load_inputs` silently skips every row whose
spouse cell strips to the empty string — before even looking at its other
cells, so no error can arise from such a row — and the exactly-two-rows
check counts only non-blank rows: two data rows with one blank fail the
count, while three data rows with one blank pass it. -/
theorem load_inputs_blank_rows :
    (∀ (row : CsvRow) (rest : List CsvRow), pyStrip row.spouse = "" →
      loadLoop (row :: rest) = loadLoop rest) ∧
    load_inputs [rowAlice, blankRow] =
      .error "Provide exactly two spouse rows in the CSV." ∧
    load_inputs [rowAlice, blankRow, rowBob] =
      .ok [⟨"alice", "weekly", 10, 1000, 100, 0, 50⟩,
           ⟨"bob", "biweekly", 8, 2000, 0, 0, 100⟩] := by
  refine ⟨?_, by rfl, by rfl⟩
  intro row rest h
  conv_lhs => rw [loadLoop]
  rw [if_pos h]

/-- Witness for C10 at a concrete input: the blank row (whose frequency cell
`"daily"` would otherwise be rejected) is skipped without error. -/
theorem load_inputs_blank_rows_witness :
    loadLoop [blankRow, rowBob] = loadLoop [rowBob] :=
  load_inputs_blank_rows.1 blankRow [rowBob] (by decide)

end TaxTool
